import Mathlib

/-!
Verification of the tapulex document-QA data layer.

The repository ships two PostgreSQL definitions of the similarity-search function
`match_documents` (the schema in `src/unnamed/part_001` and the migration in
`src/backend/migrations/init_vector_search.sql`), the tables `documents`,
`document_chunks` and `chat_feedback` with their constraints, and the React
chat frontend (`src/frontend/src/pages/Chat.jsx`, `src/frontend/src/services/api.js`).
This file embeds those artefacts shallowly: tables become lists of records in
creation order, SQL `NULL` becomes `Option`, the pgvector distance operator
`<=>` is an abstract parameter `dist`, and each SQL `WHERE` clause is translated
predicate by predicate with SQL's three-valued logic made explicit (a comparison
against `NULL` is not satisfied).
-/

namespace Tapulex

/-- An embedding vector (`vector(1536)` in the schema); dimension is not
tracked.  The SQL scalar type is `float`; the model uses ℤ as the similarity
scalar — every property proved below uses only its linearly-ordered-ring
structure, which ℤ and floats share, and ℤ evaluates inside the kernel. -/
abbrev Vec := List ℤ

/-- Row of the `documents` table (src/unnamed/part_001, lines 24-37).
`status` has a default and a check constraint but no `NOT NULL`, so the column
is nullable, hence `Option`. -/
structure Document where
  id : ℕ
  org_id : ℕ
  storage_path : String
  filename : String
  mime_type : String
  size_bytes : ℕ
  status : Option String
  error_message : Option String
  created_at : ℕ
deriving Repr, DecidableEq

/-- Row of the `document_chunks` table (src/unnamed/part_001, lines 40-49).
`embedding` is nullable in the schema, hence `Option`. -/
structure Chunk where
  id : ℕ
  org_id : ℕ
  document_id : ℕ
  chunk_index : ℕ
  text : String
  metadata : String
  embedding : Option Vec
  created_at : ℕ
deriving Repr, DecidableEq

/-- Row of the `chat_feedback` table (init_vector_search.sql, lines 41-48). -/
structure Feedback where
  id : ℕ
  session_id : ℕ
  message_id : Option ℕ
  score : ℤ
  comment : Option String
  created_at : ℕ
deriving Repr, DecidableEq

/-- Database state: the tables the claims touch, each list in creation order. -/
structure DB where
  documents : List Document
  document_chunks : List Chunk
  chat_feedback : List Feedback
deriving Repr, DecidableEq

/-- Distance of a chunk's embedding to the query vector, as used by
`ORDER BY dc.embedding <=> query_embedding`; `dist` stands for the pgvector
`<=>` operator.  The `none` branch is irrelevant to both queries: rows with a
`NULL` embedding never pass their `WHERE` clauses. -/
def distOf (dist : Vec → Vec → ℤ) (q : Vec) (dc : Chunk) : ℤ :=
  match dc.embedding with
  | some e => dist e q
  | none => 0

/-- Order relation realising `ORDER BY dc.embedding <=> query_embedding` on chunks. -/
def distLE (dist : Vec → Vec → ℤ) (q : Vec) (a b : Chunk) : Prop :=
  distOf dist q a ≤ distOf dist q b

instance (dist : Vec → Vec → ℤ) (q : Vec) : DecidableRel (distLE dist q) :=
  fun a b => inferInstanceAs (Decidable (distOf dist q a ≤ distOf dist q b))

instance (dist : Vec → Vec → ℤ) (q : Vec) : IsTotal Chunk (distLE dist q) :=
  ⟨fun a b => le_total (distOf dist q a) (distOf dist q b)⟩

instance (dist : Vec → Vec → ℤ) (q : Vec) : IsTrans Chunk (distLE dist q) :=
  ⟨fun _ _ _ hab hbc => le_trans hab hbc⟩

/-- The same order on joined `(chunk, document)` rows: the key only reads the chunk. -/
def distLEfst (dist : Vec → Vec → ℤ) (q : Vec) (a b : Chunk × Document) : Prop :=
  distOf dist q a.1 ≤ distOf dist q b.1

instance (dist : Vec → Vec → ℤ) (q : Vec) : DecidableRel (distLEfst dist q) :=
  fun a b => inferInstanceAs (Decidable (distOf dist q a.1 ≤ distOf dist q b.1))

instance (dist : Vec → Vec → ℤ) (q : Vec) : IsTotal (Chunk × Document) (distLEfst dist q) :=
  ⟨fun a b => le_total (distOf dist q a.1) (distOf dist q b.1)⟩

instance (dist : Vec → Vec → ℤ) (q : Vec) : IsTrans (Chunk × Document) (distLEfst dist q) :=
  ⟨fun _ _ _ hab hbc => le_trans hab hbc⟩

/-- SQL equality `a = b` where `b` may be `NULL`: `NULL` on either side is never
satisfied (three-valued logic collapses to the rows actually kept). -/
def sqlEqNullable (a : ℕ) (b : Option ℕ) : Bool :=
  match b with
  | some v => a == v
  | none => false

/-- The predicate `1 - (embedding <=> query_embedding) > match_threshold` on a
nullable embedding; a `NULL` embedding yields SQL `NULL`, so the row is dropped. -/
def simPred (dist : Vec → Vec → ℤ) (q : Vec) (th : ℤ) (emb : Option Vec) : Bool :=
  match emb with
  | some e => decide ((1 : ℤ) - dist e q > th)
  | none => false

/-- `WHERE` clause of the schema version of `match_documents`
(src/unnamed/part_001, lines 147-149):
`dc.org_id = filter_org_id AND dc.embedding IS NOT NULL AND 1 - (dc.embedding <=> q) > th`. -/
def schemaWhere (dist : Vec → Vec → ℤ) (q : Vec) (th : ℤ) (filt : Option ℕ)
    (dc : Chunk) : Bool :=
  sqlEqNullable dc.org_id filt && dc.embedding.isSome && simPred dist q th dc.embedding

/-- `WHERE` clause of the migration version of `match_documents`
(init_vector_search.sql, lines 33-34):
`1 - (dc.embedding <=> q) > th AND (filter_org_id IS NULL OR d.org_id = filter_org_id)`. -/
def migrationWhere (dist : Vec → Vec → ℤ) (q : Vec) (th : ℤ) (filt : Option ℕ)
    (p : Chunk × Document) : Bool :=
  simPred dist q th p.1.embedding && (filt.isNone || sqlEqNullable p.2.org_id filt)

/-- Return row of the schema version of `match_documents`. -/
structure SchemaRow where
  id : ℕ
  document_id : ℕ
  chunk_index : ℕ
  text : String
  metadata : String
  similarity : ℤ
deriving Repr, DecidableEq

/-- Return row of the migration version of `match_documents`. -/
structure MigrationRow where
  id : ℕ
  document_id : ℕ
  text : String
  metadata : String
  similarity : ℤ
  filename : String
deriving Repr, DecidableEq

/-- `SELECT` list of the schema version. -/
def schemaProject (dist : Vec → Vec → ℤ) (q : Vec) (dc : Chunk) : SchemaRow :=
  { id := dc.id, document_id := dc.document_id, chunk_index := dc.chunk_index,
    text := dc.text, metadata := dc.metadata, similarity := 1 - distOf dist q dc }

/-- `SELECT` list of the migration version (`d.filename` comes from the join). -/
def migrationProject (dist : Vec → Vec → ℤ) (q : Vec) (p : Chunk × Document) : MigrationRow :=
  { id := p.1.id, document_id := p.1.document_id, text := p.1.text,
    metadata := p.1.metadata, similarity := 1 - distOf dist q p.1,
    filename := p.2.filename }

/-- Schema version of `match_documents` (src/unnamed/part_001, lines 122-154):
filter `document_chunks` by its `WHERE` clause, order by distance ascending
(stable on the table's creation order), `LIMIT match_count`, project. -/
def match_documents_schema (dist : Vec → Vec → ℤ) (db : DB) (query_embedding : Vec)
    (match_threshold : ℤ) (match_count : ℕ) (filter_org_id : Option ℕ) : List SchemaRow :=
  ((((db.document_chunks.filter
        (schemaWhere dist query_embedding match_threshold filter_org_id)).insertionSort
      (distLE dist query_embedding)).take match_count).map
    (schemaProject dist query_embedding))

/-- `FROM document_chunks dc JOIN documents d ON dc.document_id = d.id`. -/
def joinRows (db : DB) : List (Chunk × Document) :=
  db.document_chunks.flatMap fun dc =>
    (db.documents.filter fun d => d.id == dc.document_id).map fun d => (dc, d)

/-- Migration version of `match_documents` (init_vector_search.sql, lines 6-38):
join with `documents`, filter by its `WHERE` clause, order by distance
ascending, `LIMIT match_count`, project. -/
def match_documents_migration (dist : Vec → Vec → ℤ) (db : DB) (query_embedding : Vec)
    (match_threshold : ℤ) (match_count : ℕ) (filter_org_id : Option ℕ) : List MigrationRow :=
  (((((joinRows db).filter
        (migrationWhere dist query_embedding match_threshold filter_org_id)).insertionSort
      (distLEfst dist query_embedding)).take match_count).map
    (migrationProject dist query_embedding))

/-- The SQL contract of the schema version of `match_documents`: `ORDER BY`
with the single key `dc.embedding <=> query_embedding` fixes only a
nondecreasing-distance arrangement of the qualifying rows — ties may come in
any order — and `LIMIT` keeps the first `match_count` rows of that
arrangement.  Any such arrangement is a valid result of the query. -/
def validSchemaResult (dist : Vec → Vec → ℤ) (db : DB) (q : Vec) (th : ℤ) (cnt : ℕ)
    (filt : Option ℕ) (res : List SchemaRow) : Prop :=
  ∃ l : List Chunk,
    l.Perm (db.document_chunks.filter (schemaWhere dist q th filt)) ∧
    l.Sorted (distLE dist q) ∧
    res = (l.take cnt).map (schemaProject dist q)

/-- Error raised when the `chat_feedback` check constraint
`check (score >= 1 and score <= 5)` rejects an insert (the spec's name for it). -/
inductive FeedbackError where
  | InvalidFeedback
deriving Repr, DecidableEq

/-- Insert into `chat_feedback` (init_vector_search.sql, lines 41-48): the check
constraint `score >= 1 and score <= 5` gates the insert; on success the row is
appended, on violation the table is untouched. -/
def record_feedback (db : DB) (fid : ℕ) (session_id : ℕ) (message_id : Option ℕ)
    (score : ℤ) (comment : Option String) (now : ℕ) : Except FeedbackError DB :=
  if 1 ≤ score ∧ score ≤ 5 then
    .ok { db with chat_feedback := db.chat_feedback ++
      [{ id := fid, session_id := session_id, message_id := message_id,
         score := score, comment := comment, created_at := now }] }
  else
    .error .InvalidFeedback

/-- Delete a document: `document_chunks.document_id` carries
`REFERENCES documents(id) ON DELETE CASCADE` (src/unnamed/part_001, line 43),
so the delete removes the document row and all chunks referencing it in one
transactional step. -/
def delete_document (db : DB) (doc_id : ℕ) : DB :=
  { db with
    documents := db.documents.filter fun d => d.id != doc_id,
    document_chunks := db.document_chunks.filter fun dc => dc.document_id != doc_id }

/-- Referential integrity of chunks: every chunk's `document_id` resolves to a
document row (the foreign key of src/unnamed/part_001, line 43). -/
def chunksHaveOwner (db : DB) : Prop :=
  ∀ dc ∈ db.document_chunks, ∃ d ∈ db.documents, d.id = dc.document_id

/-- The admissible `documents.status` values
(`CHECK (status IN ('uploaded', 'processing', 'indexed', 'failed'))`,
src/unnamed/part_001, line 34). -/
def statusValues : List String := ["uploaded", "processing", "indexed", "failed"]

/-- Error raised when the `documents.status` check constraint rejects a write. -/
inductive DocError where
  | CheckViolation
deriving Repr, DecidableEq

/-- The check constraint `status IN ('uploaded','processing','indexed','failed')`
under SQL three-valued logic: a check blocks a write only when it evaluates to
FALSE; on a NULL status it evaluates to NULL, so the write is admitted (the
column carries no `NOT NULL`). -/
def statusCheckOk (st : Option String) : Bool :=
  match st with
  | none => true
  | some v => decide (v ∈ statusValues)

/-- Insert into `documents` (src/unnamed/part_001, lines 24-37): `status`
defaults to `'uploaded'` when the insert omits the column (outer `none`), while
an explicitly supplied value may itself be NULL (inner `Option`); the check
constraint rejects only a non-null status outside the four lifecycle values. -/
def insert_document (db : DB) (id org_id : ℕ) (storage_path filename mime_type : String)
    (size_bytes : ℕ) (status : Option (Option String)) (now : ℕ) : Except DocError DB :=
  let st := status.getD (some "uploaded")
  if statusCheckOk st then
    .ok { db with documents := db.documents ++
      [{ id := id, org_id := org_id, storage_path := storage_path, filename := filename,
         mime_type := mime_type, size_bytes := size_bytes, status := st,
         error_message := none, created_at := now }] }
  else .error .CheckViolation

/-- Update a document's `status` and `error_message`; the same check constraint
gates the new value, and a NULL status passes it. -/
def update_document_status (db : DB) (doc_id : ℕ) (st : Option String)
    (err : Option String) : Except DocError DB :=
  if statusCheckOk st then
    .ok { db with documents := db.documents.map fun d =>
      if d.id == doc_id then { d with status := st, error_message := err } else d }
  else .error .CheckViolation

/-- Modelled from the spec: the fixed refusal statement of the abstention
policy (§4.5 step 3); the backend answerer that emits it is not among the
repository sources. -/
def abstentionText : String := "no explicit provision found in the regulatory corpus"

/-- Modelled from the spec: the backend Retrieval-Augmented Answerer behind
`POST /api/chat` is not among the repository sources — only its HTTP callers
(`src/frontend/src/services/api.js`) and the SQL retrieval function are.  Per
spec §4.5 it retrieves top-K chunks via `match_documents` with a relevance
threshold; if the retrieved set is empty it returns the fixed refusal
statement and an empty source list without invoking the generation provider
(`generate`); otherwise it invokes the provider on the retrieved context. -/
def answer (dist : Vec → Vec → ℤ) (generate : String → List String → String)
    (db : DB) (org : ℕ) (question : String) (query_embedding : Vec)
    (k : ℕ) (threshold : ℤ) : String × List SchemaRow :=
  let retrieved := match_documents_schema dist db query_embedding threshold k (some org)
  if retrieved.isEmpty then (abstentionText, [])
  else (generate question (retrieved.map fun r => r.text), retrieved)

/-- A source entry as the chat UI stores it (Chat.jsx, `aiResponse.sources`). -/
structure UiSource where
  file : String
  page : String
  excerpt : String
deriving Repr, DecidableEq

/-- A source entry as the backend JSON carries it (`data.sources[i]`);
`page` may be absent, which the UI replaces by `"-"`. -/
structure ApiSource where
  filename : String
  page : Option String
  excerpt : String
deriving Repr, DecidableEq

/-- A chat message in the UI state (Chat.jsx `messages` entries). -/
structure UiMessage where
  id : ℕ
  type : String
  content : String
  timestamp : ℕ
  sources : List UiSource
deriving Repr, DecidableEq

/-- Outcome of the `fetch` to `POST /api/chat` in `handleSend`: a parsed JSON
body (whose `answer` and `sources` fields may each be absent), or a thrown
error (network failure or unparsable body), which lands in the `catch` block. -/
inductive ChatApiResult where
  | ok (answer : Option String) (sources : Option (List ApiSource))
  | connectionError
deriving Repr, DecidableEq

/-- JavaScript `String.prototype.trim`, written structurally so that it
evaluates: strip whitespace from both ends of the string. -/
def strTrim (s : String) : String :=
  ⟨((s.data.dropWhile Char.isWhitespace).reverse.dropWhile Char.isWhitespace).reverse⟩

/-- The fixed failure reply of Chat.jsx's `catch` block (lines 116-126). -/
def connectionErrorText : String := "Bağlantı hatası oluştu. Lütfen tekrar deneyin."

/-- `handleSend` of `src/frontend/src/pages/Chat.jsx` (lines 74-127), state
transitions only: a blank input returns unchanged; otherwise the user message
is appended first, then either the parsed assistant reply (`data.answer`,
falling back to `'Bir hata oluştu.'`; sources mapped with `page || '-'`,
falling back to `[]`) or, when the fetch throws, the fixed connection-error
reply with no sources.  `now` stands for `Date.now()`. -/
def handleSend (now : ℕ) (messages : List UiMessage) (inputValue : String)
    (result : ChatApiResult) : List UiMessage :=
  if strTrim inputValue = "" then messages else
  let userMessage : UiMessage :=
    { id := now, type := "user", content := inputValue, timestamp := now, sources := [] }
  let afterUser := messages ++ [userMessage]
  match result with
  | .ok ans srcs =>
      afterUser ++ [{ id := now + 1, type := "assistant",
                      content := ans.getD "Bir hata oluştu.", timestamp := now,
                      sources := (srcs.map fun l => l.map fun s =>
                        ({ file := s.filename, page := s.page.getD "-",
                           excerpt := s.excerpt } : UiSource)).getD [] }]
  | .connectionError =>
      afterUser ++ [{ id := now + 1, type := "assistant",
                      content := connectionErrorText, timestamp := now, sources := [] }]

/-- Status invariant the `documents` table actually enforces: every row's
`status` passes the check constraint, i.e. it is NULL or one of the four
lifecycle values — NULL slips through because the column lacks `NOT NULL`. -/
def statusInvariant (db : DB) : Prop :=
  ∀ d ∈ db.documents, statusCheckOk d.status = true

/-- The retrieval contract of spec §4.3 for a result of `match_documents`:
ranked by similarity nonincreasing, truncated to `match_count`, and every row
carries similarity `1 - dist(embedding, query)` of a stored chunk with a
present embedding, strictly above the threshold. -/
def matchContract (dist : Vec → Vec → ℤ) (db : DB) (q : Vec) (th : ℤ) (cnt : ℕ)
    (res : List SchemaRow) : Prop :=
  res.Sorted (fun a b => b.similarity ≤ a.similarity) ∧
  res.length ≤ cnt ∧
  ∀ r ∈ res, th < r.similarity ∧
    ∃ dc ∈ db.document_chunks, ∃ e, dc.embedding = some e ∧
      r.id = dc.id ∧ r.similarity = 1 - dist e q

/-- A concrete instance of the abstract `<=>` operator used to evaluate the
model on explicit inputs: coordinatewise absolute difference, summed. -/
def absDist : Vec → Vec → ℤ :=
  fun v w => ((v.zip w).map fun p => if p.1 ≤ p.2 then p.2 - p.1 else p.1 - p.2).sum

/-- Empty database, used to evaluate the model on concrete inputs. -/
def exDb0 : DB := { documents := [], document_chunks := [], chat_feedback := [] }

/-- Sample document of org 1. -/
def exDocA : Document :=
  { id := 1, org_id := 1, storage_path := "p1", filename := "f1.pdf",
    mime_type := "application/pdf", size_bytes := 10, status := some "indexed",
    error_message := none, created_at := 0 }

/-- Sample document of org 2. -/
def exDocB : Document :=
  { id := 2, org_id := 2, storage_path := "p2", filename := "f2.pdf",
    mime_type := "application/pdf", size_bytes := 20, status := some "indexed",
    error_message := none, created_at := 1 }

/-- Sample chunk of org 1 under `exDocA`. -/
def exChunkA : Chunk :=
  { id := 1, org_id := 1, document_id := 1, chunk_index := 0, text := "t1",
    metadata := "", embedding := some [0], created_at := 0 }

/-- Sample chunk of org 2 under `exDocB`, same embedding as `exChunkA`. -/
def exChunkB : Chunk :=
  { id := 2, org_id := 2, document_id := 2, chunk_index := 0, text := "t2",
    metadata := "", embedding := some [0], created_at := 1 }

/-- Two tenants, one indexed chunk each, identical embeddings. -/
def exDbLeak : DB :=
  { documents := [exDocA, exDocB], document_chunks := [exChunkA, exChunkB],
    chat_feedback := [] }

/-- One document with one chunk, used for delete/ownership statements. -/
def exDbOwner : DB :=
  { documents := [exDocA], document_chunks := [exChunkA], chat_feedback := [] }

/-- Second chunk of org 1 under `exDocA`, same embedding as `exChunkA` but a
later creation order — a similarity tie. -/
def exChunkTie : Chunk :=
  { id := 3, org_id := 1, document_id := 1, chunk_index := 1, text := "t3",
    metadata := "", embedding := some [0], created_at := 2 }

/-- One tenant holding two chunks whose embeddings are identical, so their
similarities to any query tie exactly. -/
def exDbTie : DB :=
  { documents := [exDocA], document_chunks := [exChunkA, exChunkTie],
    chat_feedback := [] }

/-- A chunk whose own `org_id` (1) disagrees with its document's `org_id`:
nothing in the schema constrains the two columns to agree. -/
def exChunkMis : Chunk :=
  { id := 7, org_id := 1, document_id := 2, chunk_index := 0, text := "t7",
    metadata := "", embedding := some [0], created_at := 0 }

/-- Database where a chunk's `org_id` differs from its owning document's. -/
def exDbMis : DB :=
  { documents := [exDocB], document_chunks := [exChunkMis], chat_feedback := [] }

/-- The document row produced by inserting into `exDb0` with default status. -/
def exInsertedDoc : Document :=
  { id := 1, org_id := 1, storage_path := "p", filename := "f", mime_type := "m",
    size_bytes := 0, status := some "uploaded", error_message := none, created_at := 0 }

/-- The document row produced by inserting into `exDb0` with an explicit NULL
status — the check constraint admits it. -/
def exNullStatusDoc : Document :=
  { id := 1, org_id := 1, storage_path := "p", filename := "f", mime_type := "m",
    size_bytes := 0, status := none, error_message := none, created_at := 0 }

/-- `exDb0` after that insert. -/
def exDbIns : DB :=
  { documents := [exInsertedDoc], document_chunks := [], chat_feedback := [] }

theorem sqlEqNullable_some_iff {a o : ℕ} : sqlEqNullable a (some o) = true ↔ a = o := by
  simp [sqlEqNullable]

theorem sqlEqNullable_none (a : ℕ) : sqlEqNullable a none = false := rfl

theorem schemaWhere_dest {dist : Vec → Vec → ℤ} {q : Vec} {th : ℤ} {filt : Option ℕ}
    {dc : Chunk} (h : schemaWhere dist q th filt dc = true) :
    sqlEqNullable dc.org_id filt = true ∧ ∃ e, dc.embedding = some e ∧ th < 1 - dist e q := by
  simp only [schemaWhere, Bool.and_eq_true] at h
  obtain ⟨⟨h1, _⟩, h3⟩ := h
  refine ⟨h1, ?_⟩
  cases hemb : dc.embedding with
  | none => rw [hemb] at h3; simp [simPred] at h3
  | some e =>
      rw [hemb] at h3
      exact ⟨e, rfl, by simpa [simPred, gt_iff_lt] using h3⟩

theorem migrationWhere_dest {dist : Vec → Vec → ℤ} {q : Vec} {th : ℤ} {filt : Option ℕ}
    {p : Chunk × Document} (h : migrationWhere dist q th filt p = true) :
    (∃ e, p.1.embedding = some e ∧ th < 1 - dist e q) ∧
    (filt = none ∨ sqlEqNullable p.2.org_id filt = true) := by
  simp only [migrationWhere, Bool.and_eq_true, Bool.or_eq_true] at h
  obtain ⟨h1, h2⟩ := h
  constructor
  · cases hemb : p.1.embedding with
    | none => rw [hemb] at h1; simp [simPred] at h1
    | some e =>
        rw [hemb] at h1
        exact ⟨e, rfl, by simpa [simPred, gt_iff_lt] using h1⟩
  · rcases h2 with h2 | h2
    · exact Or.inl (Option.isNone_iff_eq_none.1 h2)
    · exact Or.inr h2

theorem mem_match_schema {dist : Vec → Vec → ℤ} {db : DB} {q : Vec} {th : ℤ}
    {cnt : ℕ} {filt : Option ℕ} {r : SchemaRow}
    (hr : r ∈ match_documents_schema dist db q th cnt filt) :
    ∃ dc, dc ∈ db.document_chunks ∧ schemaWhere dist q th filt dc = true ∧
      r = schemaProject dist q dc := by
  unfold match_documents_schema at hr
  obtain ⟨dc, hdc, rfl⟩ := List.mem_map.1 hr
  have h1 := List.mem_of_mem_take hdc
  rw [List.mem_insertionSort] at h1
  have h2 := List.mem_filter.1 h1
  exact ⟨dc, h2.1, h2.2, rfl⟩

theorem mem_joinRows {db : DB} {p : Chunk × Document} (hp : p ∈ joinRows db) :
    p.1 ∈ db.document_chunks ∧ p.2 ∈ db.documents ∧ p.2.id = p.1.document_id := by
  unfold joinRows at hp
  obtain ⟨dc, hdc, hin⟩ := List.mem_flatMap.1 hp
  obtain ⟨d, hd, rfl⟩ := List.mem_map.1 hin
  have h2 := List.mem_filter.1 hd
  exact ⟨hdc, h2.1, by simpa using h2.2⟩

theorem mem_match_migration {dist : Vec → Vec → ℤ} {db : DB} {q : Vec} {th : ℤ}
    {cnt : ℕ} {filt : Option ℕ} {r : MigrationRow}
    (hr : r ∈ match_documents_migration dist db q th cnt filt) :
    ∃ p, p ∈ joinRows db ∧ migrationWhere dist q th filt p = true ∧
      r = migrationProject dist q p := by
  unfold match_documents_migration at hr
  obtain ⟨p, hp, rfl⟩ := List.mem_map.1 hr
  have h1 := List.mem_of_mem_take hp
  rw [List.mem_insertionSort] at h1
  have h2 := List.mem_filter.1 h1
  exact ⟨p, h2.1, h2.2, rfl⟩

/-- C5: a feedback score outside [1,5] is rejected with `InvalidFeedback` and
no row is inserted (the table is exactly what it was), while a score inside
[1,5] appends exactly one row at the end of the table — the feedback store is
append-only. -/
theorem record_feedback_check (db : DB) (fid sid : ℕ) (mid : Option ℕ)
    (score : ℤ) (comment : Option String) (now : ℕ) :
    (¬(1 ≤ score ∧ score ≤ 5) →
      record_feedback db fid sid mid score comment now = .error .InvalidFeedback) ∧
    ((1 ≤ score ∧ score ≤ 5) →
      record_feedback db fid sid mid score comment now =
        .ok { db with chat_feedback := db.chat_feedback ++
                [{ id := fid, session_id := sid, message_id := mid,
                   score := score, comment := comment, created_at := now }] }) := by
  constructor
  · intro h
    simp [record_feedback, h]
  · intro h
    simp [record_feedback, h]

theorem record_feedback_check_witness :
    record_feedback exDb0 0 0 none 6 none 0 = .error .InvalidFeedback ∧
    record_feedback exDb0 0 0 none 3 none 0 =
      .ok { documents := [], document_chunks := [],
            chat_feedback := [{ id := 0, session_id := 0, message_id := none,
                                score := 3, comment := none, created_at := 0 }] } :=
  ⟨(record_feedback_check exDb0 0 0 none 6 none 0).1 (by decide),
   (record_feedback_check exDb0 0 0 none 3 none 0).2 (by decide)⟩

/-- C6: deleting a document removes the document row and every chunk that
references it in one atomic step: afterwards no chunk of the deleted document
remains, the document row itself is gone, and — assuming referential
integrity held before — every surviving chunk still has its owning document
(no dangling chunk is ever observable). -/
theorem delete_document_cascades (db : DB) (doc_id : ℕ) (h : chunksHaveOwner db) :
    chunksHaveOwner (delete_document db doc_id) ∧
    (∀ dc ∈ (delete_document db doc_id).document_chunks, dc.document_id ≠ doc_id) ∧
    (∀ d ∈ (delete_document db doc_id).documents, d.id ≠ doc_id) := by
  refine ⟨?_, ?_, ?_⟩
  · intro dc hdc
    simp only [delete_document, List.mem_filter, bne_iff_ne, ne_eq] at hdc
    obtain ⟨hmem, hne⟩ := hdc
    obtain ⟨d, hd, hid⟩ := h dc hmem
    refine ⟨d, ?_, hid⟩
    simp only [delete_document, List.mem_filter, bne_iff_ne, ne_eq]
    exact ⟨hd, by rw [hid]; exact hne⟩
  · intro dc hdc
    simp only [delete_document, List.mem_filter, bne_iff_ne, ne_eq] at hdc
    exact hdc.2
  · intro d hd
    simp only [delete_document, List.mem_filter, bne_iff_ne, ne_eq] at hd
    exact hd.2

theorem delete_document_cascades_witness :
    chunksHaveOwner (delete_document exDbOwner 1) ∧
    (∀ dc ∈ (delete_document exDbOwner 1).document_chunks, dc.document_id ≠ 1) ∧
    (∀ d ∈ (delete_document exDbOwner 1).documents, d.id ≠ 1) :=
  delete_document_cascades exDbOwner 1
    (by intro dc hdc
        simp only [exDbOwner, List.mem_singleton] at hdc
        exact ⟨exDocA, by simp [exDbOwner], by rw [hdc]; rfl⟩)

/-- C7 (amended): the check constraint keeps every document's `status` NULL or
one of the four lifecycle values across inserts and status updates — NULL is
admitted because `documents.status` has no `NOT NULL` and a check evaluating
to NULL does not block the write — and an insert that omits the status column
appends a document with the default status `'uploaded'`. -/
theorem document_status_check (db : DB) (id org : ℕ) (sp fn mt : String) (sz : ℕ)
    (stOpt : Option (Option String)) (now : ℕ) (doc_id : ℕ) (st : Option String)
    (err : Option String) (h : statusInvariant db) :
    (∀ db2, insert_document db id org sp fn mt sz stOpt now = .ok db2 → statusInvariant db2) ∧
    (∀ db2, update_document_status db doc_id st err = .ok db2 → statusInvariant db2) ∧
    (∀ db2, insert_document db id org sp fn mt sz none now = .ok db2 →
      ∃ d, db2.documents = db.documents ++ [d] ∧ d.status = some "uploaded") := by
  refine ⟨?_, ?_, ?_⟩
  · intro db2 hok
    simp only [insert_document] at hok
    split at hok
    case isTrue hst =>
      cases hok
      intro d hd
      rcases List.mem_append.1 hd with hd | hd
      · exact h d hd
      · rw [List.mem_singleton] at hd
        subst hd
        exact hst
    case isFalse => cases hok
  · intro db2 hok
    simp only [update_document_status] at hok
    split at hok
    case isTrue hst =>
      cases hok
      intro d hd
      obtain ⟨d0, hd0, rfl⟩ := List.mem_map.1 hd
      by_cases hid : (d0.id == doc_id) = true
      · simp only [hid, if_true]
        exact hst
      · simp only [hid, if_false]
        exact h d0 hd0
    case isFalse => cases hok
  · intro db2 hok
    simp only [insert_document] at hok
    split at hok
    case isTrue hst =>
      cases hok
      exact ⟨_, rfl, rfl⟩
    case isFalse hst =>
      exact absurd (by decide :
        statusCheckOk ((none : Option (Option String)).getD (some "uploaded")) = true) hst

theorem document_status_check_witness :
    statusInvariant exDbIns ∧
    (∃ d, exDbIns.documents = exDb0.documents ++ [d] ∧ d.status = some "uploaded") :=
  ⟨(document_status_check exDb0 1 1 "p" "f" "m" 0 none 0 1 (some "indexed") none
      (by intro d hd; simp [exDb0] at hd)).1 exDbIns rfl,
   (document_status_check exDb0 1 1 "p" "f" "m" 0 none 0 1 (some "indexed") none
      (by intro d hd; simp [exDb0] at hd)).2.2 exDbIns rfl⟩

/-- C7 is false as stated: `documents.status` carries no `NOT NULL`, and a
check constraint blocks a write only when it evaluates to FALSE — on a NULL
status `status IN (...)` evaluates to NULL, so both an insert supplying an
explicit NULL status and an update setting the status to NULL succeed, leaving
a document whose status is none of the four lifecycle values. -/
theorem document_status_null_slips_check :
    insert_document exDb0 1 1 "p" "f" "m" 0 (some none) 0 =
      .ok { documents := [exNullStatusDoc], document_chunks := [], chat_feedback := [] } ∧
    update_document_status exDbIns 1 none none =
      .ok { documents := [exNullStatusDoc], document_chunks := [], chat_feedback := [] } ∧
    exNullStatusDoc.status = none ∧
    exNullStatusDoc.status ∉ statusValues.map some :=
  ⟨rfl, rfl, rfl, by decide⟩

/-- C8: when the chat request fails (network error or unparsable reply lands in
the `catch` block), the user's just-sent message is still appended to the
conversation, followed by the fixed connection-failure assistant reply with an
empty source list — the question is never dropped and no content is made up. -/
theorem handleSend_failure_placeholder (now : ℕ) (messages : List UiMessage)
    (inputValue : String) (h : strTrim inputValue ≠ "") :
    handleSend now messages inputValue .connectionError =
      messages ++
        [{ id := now, type := "user", content := inputValue,
           timestamp := now, sources := [] },
         { id := now + 1, type := "assistant", content := connectionErrorText,
           timestamp := now, sources := [] }] := by
  simp [handleSend, h]

theorem handleSend_failure_placeholder_witness :
    handleSend 5 [] "soru" .connectionError =
      [{ id := 5, type := "user", content := "soru", timestamp := 5, sources := [] },
       { id := 6, type := "assistant", content := connectionErrorText,
         timestamp := 5, sources := [] }] :=
  handleSend_failure_placeholder 5 [] "soru" (by decide)

/-- C2: when retrieval yields no chunk above the threshold (the retrieved set
is empty), `answer` returns the fixed abstention text with an empty source
list, and the result is the same whatever the generation provider is — the
provider is not consulted. -/
theorem answer_abstains (dist : Vec → Vec → ℤ) (g1 g2 : String → List String → String)
    (db : DB) (org : ℕ) (question : String) (q : Vec) (k : ℕ) (th : ℤ)
    (h : match_documents_schema dist db q th k (some org) = []) :
    answer dist g1 db org question q k th = (abstentionText, []) ∧
    answer dist g1 db org question q k th = answer dist g2 db org question q k th := by
  constructor <;> simp [answer, h]

theorem answer_abstains_witness :
    answer absDist (fun _ _ => "a1") exDb0 1 "soru" [0] 5 (1 : ℤ) =
      (abstentionText, []) ∧
    answer absDist (fun _ _ => "a1") exDb0 1 "soru" [0] 5 (1 : ℤ) =
      answer absDist (fun _ _ => "a2") exDb0 1 "soru" [0] 5 (1 : ℤ) :=
  answer_abstains absDist (fun _ _ => "a1") (fun _ _ => "a2") exDb0 1 "soru" [0] 5
    (1 : ℤ) rfl

/-- C1 (amended): with a non-null tenant filter T1, both versions of
`match_documents` are tenant-isolated — the schema version returns only chunks
whose own `org_id` is T1, and the migration version only chunks whose owning
document's `org_id` is T1 — and with a null filter the schema version returns
no rows at all.  (With a null filter the migration version instead searches
across all tenants; see the counterexample.) -/
theorem match_documents_tenant_isolation (dist : Vec → Vec → ℤ) (db : DB) (q : Vec)
    (th : ℤ) (cnt : ℕ) (o : ℕ) :
    (∀ r ∈ match_documents_schema dist db q th cnt (some o),
      ∃ dc ∈ db.document_chunks, r.id = dc.id ∧ dc.org_id = o) ∧
    (∀ r ∈ match_documents_migration dist db q th cnt (some o),
      ∃ dc ∈ db.document_chunks, ∃ d ∈ db.documents,
        r.id = dc.id ∧ d.id = dc.document_id ∧ d.org_id = o) ∧
    match_documents_schema dist db q th cnt none = [] := by
  refine ⟨?_, ?_, ?_⟩
  · intro r hr
    obtain ⟨dc, hdc, hw, rfl⟩ := mem_match_schema hr
    obtain ⟨h1, _⟩ := schemaWhere_dest hw
    exact ⟨dc, hdc, rfl, sqlEqNullable_some_iff.1 h1⟩
  · intro r hr
    obtain ⟨p, hp, hw, rfl⟩ := mem_match_migration hr
    obtain ⟨hc, hd, hid⟩ := mem_joinRows hp
    obtain ⟨_, horg⟩ := migrationWhere_dest hw
    rcases horg with horg | horg
    · cases horg
    · exact ⟨p.1, hc, p.2, hd, rfl, hid, sqlEqNullable_some_iff.1 horg⟩
  · unfold match_documents_schema
    have hnil : db.document_chunks.filter (schemaWhere dist q th none) = [] := by
      apply List.filter_eq_nil_iff.2
      intro a _
      simp [schemaWhere, sqlEqNullable]
    simp [hnil]

theorem match_documents_tenant_isolation_witness :
    (∃ dc ∈ exDbLeak.document_chunks,
      (schemaProject absDist [0] exChunkA).id = dc.id ∧ dc.org_id = 1) ∧
    match_documents_schema absDist exDbLeak [0] 0 10 none = [] :=
  ⟨(match_documents_tenant_isolation absDist exDbLeak [0] 0 10 1).1
      (schemaProject absDist [0] exChunkA) (by decide),
   (match_documents_tenant_isolation absDist exDbLeak [0] 0 10 1).2.2⟩

/-- C1 is false as stated: a call of the migration version of `match_documents`
that omits the tenant filter (`filter_org_id` defaults to null) returns the
chunks of BOTH tenants in one result — org 1's chunk and org 2's chunk — so a
caller scoped to T1 = 1 that passes a null filter receives a chunk owned by
T2 = 2. -/
theorem match_documents_null_filter_leaks :
    (match_documents_migration absDist exDbLeak [0] 0 10 none).map (fun r => r.id) =
      [exChunkA.id, exChunkB.id] ∧
    exChunkA.org_id = 1 ∧ exChunkB.org_id = 2 := by
  refine ⟨by decide, rfl, rfl⟩

/-- C10: every row returned by the schema version of `match_documents` comes
from a stored chunk whose embedding is present (`IS NOT NULL`), and the row's
similarity is computed from that present vector as `1 - dist(embedding, query)`
— similarity is never evaluated on an absent embedding. -/
theorem match_schema_embedding_present (dist : Vec → Vec → ℤ) (db : DB) (q : Vec)
    (th : ℤ) (cnt : ℕ) (filt : Option ℕ) :
    ∀ r ∈ match_documents_schema dist db q th cnt filt,
      ∃ dc ∈ db.document_chunks, ∃ e, dc.embedding = some e ∧
        r.id = dc.id ∧ r.similarity = 1 - dist e q := by
  intro r hr
  obtain ⟨dc, hdc, hw, rfl⟩ := mem_match_schema hr
  obtain ⟨_, e, hemb, _⟩ := schemaWhere_dest hw
  exact ⟨dc, hdc, e, hemb, rfl, by simp [schemaProject, distOf, hemb]⟩

theorem match_schema_embedding_present_witness :
    ∃ dc ∈ exDbTie.document_chunks, ∃ e, dc.embedding = some e ∧
      (schemaProject absDist [0] exChunkA).id = dc.id ∧
      (schemaProject absDist [0] exChunkA).similarity = 1 - absDist e [0] :=
  match_schema_embedding_present absDist exDbTie [0] 0 10 (some 1)
    (schemaProject absDist [0] exChunkA) (by decide)

theorem validSchemaResult_sim_sorted {dist : Vec → Vec → ℤ} {db : DB} {q : Vec}
    {th : ℤ} {cnt : ℕ} {filt : Option ℕ} {res : List SchemaRow}
    (h : validSchemaResult dist db q th cnt filt res) :
    res.Sorted fun a b => b.similarity ≤ a.similarity := by
  obtain ⟨l, _, hsort, rfl⟩ := h
  have h1 : (l.take cnt).Pairwise (distLE dist q) := hsort.sublist (List.take_sublist cnt l)
  show (List.map (schemaProject dist q) (List.take cnt l)).Pairwise
      fun a b => b.similarity ≤ a.similarity
  rw [List.pairwise_map]
  exact h1.imp fun hab => sub_le_sub_left hab 1

/-- C3: every valid result of the schema version of `match_documents`
satisfies the retrieval contract: ranked by similarity nonincreasing, at most
`match_count` rows, and every row's similarity is `1 - dist(embedding, query)`
for the present embedding of a stored chunk and strictly exceeds the
threshold. -/
theorem match_schema_contract (dist : Vec → Vec → ℤ) (db : DB) (q : Vec) (th : ℤ)
    (cnt : ℕ) (filt : Option ℕ) (res : List SchemaRow)
    (h : validSchemaResult dist db q th cnt filt res) :
    matchContract dist db q th cnt res := by
  refine ⟨validSchemaResult_sim_sorted h, ?_, ?_⟩
  · obtain ⟨l, _, _, rfl⟩ := h
    simp only [List.length_map, List.length_take]
    exact min_le_left cnt l.length
  · obtain ⟨l, hperm, _, rfl⟩ := h
    intro r hr
    obtain ⟨dc, hdc, rfl⟩ := List.mem_map.1 hr
    have hmem : dc ∈ l := List.mem_of_mem_take hdc
    have hfil := List.mem_filter.1 (hperm.subset hmem)
    obtain ⟨_, e, hemb, hth⟩ := schemaWhere_dest hfil.2
    refine ⟨?_, dc, hfil.1, e, hemb, rfl, ?_⟩
    · simpa [schemaProject, distOf, hemb] using hth
    · simp [schemaProject, distOf, hemb]

theorem match_schema_contract_witness :
    validSchemaResult absDist exDbTie [0] 0 2 (some 1)
        ([exChunkA, exChunkTie].map (schemaProject absDist [0])) ∧
    matchContract absDist exDbTie [0] 0 2
        ([exChunkA, exChunkTie].map (schemaProject absDist [0])) := by
  have hv : validSchemaResult absDist exDbTie [0] 0 2 (some 1)
      ([exChunkA, exChunkTie].map (schemaProject absDist [0])) := by
    refine ⟨[exChunkA, exChunkTie], ?_, by decide, rfl⟩
    have he : exDbTie.document_chunks.filter (schemaWhere absDist [0] 0 (some 1)) =
        [exChunkA, exChunkTie] := by decide
    rw [he]
  exact ⟨hv, match_schema_contract absDist exDbTie [0] 0 2 (some 1) _ hv⟩

/-- C4 (amended): a valid result of the schema version of `match_documents` is
ordered by similarity nonincreasing, but the query fixes no tie-break: rows
with exactly equal similarity may appear in either relative order, so equal
runs over the same index state need not return identical sequences. -/
theorem match_schema_order_only_by_similarity (dist : Vec → Vec → ℤ) (db : DB)
    (q : Vec) (th : ℤ) (cnt : ℕ) (filt : Option ℕ) (res : List SchemaRow)
    (h : validSchemaResult dist db q th cnt filt res) :
    res.Sorted fun a b => b.similarity ≤ a.similarity :=
  validSchemaResult_sim_sorted h

theorem match_schema_order_only_by_similarity_witness :
    validSchemaResult absDist exDbTie [0] 0 1 (some 1)
        ([exChunkA].map (schemaProject absDist [0])) ∧
    ([exChunkA].map (schemaProject absDist [0])).Sorted
        (fun a b => b.similarity ≤ a.similarity) := by
  have hv : validSchemaResult absDist exDbTie [0] 0 1 (some 1)
      ([exChunkA].map (schemaProject absDist [0])) := by
    refine ⟨[exChunkA, exChunkTie], ?_, by decide, rfl⟩
    have he : exDbTie.document_chunks.filter (schemaWhere absDist [0] 0 (some 1)) =
        [exChunkA, exChunkTie] := by decide
    rw [he]
  exact ⟨hv, match_schema_order_only_by_similarity absDist exDbTie [0] 0 1 (some 1) _ hv⟩

/-- C4 is false as stated: over one tenant's corpus holding two chunks whose
similarities to the query tie exactly, BOTH relative orders are valid results
of the same `match_documents` call — in particular a valid run lists the
later-created chunk first — so the query does not order ties by lower creation
order and the returned sequence is not the same on every run. -/
theorem match_schema_tie_not_deterministic :
    validSchemaResult absDist exDbTie [0] 0 2 (some 1)
        ([exChunkA, exChunkTie].map (schemaProject absDist [0])) ∧
    validSchemaResult absDist exDbTie [0] 0 2 (some 1)
        ([exChunkTie, exChunkA].map (schemaProject absDist [0])) ∧
    ([exChunkTie, exChunkA].map (schemaProject absDist [0]) ≠
      [exChunkA, exChunkTie].map (schemaProject absDist [0])) ∧
    distOf absDist [0] exChunkA = distOf absDist [0] exChunkTie ∧
    exChunkA.created_at < exChunkTie.created_at := by
  have he : exDbTie.document_chunks.filter (schemaWhere absDist [0] 0 (some 1)) =
      [exChunkA, exChunkTie] := by decide
  refine ⟨⟨[exChunkA, exChunkTie], ?_, by decide, rfl⟩,
          ⟨[exChunkTie, exChunkA], ?_, by decide, rfl⟩, by decide, by decide, by decide⟩
  · rw [he]
  · rw [he]
    decide

theorem flatMap_filter_join (ds : List Document) (cs : List Chunk)
    (docFor : Chunk → Document)
    (h : ∀ dc ∈ cs, (ds.filter fun d => d.id == dc.document_id) = [docFor dc]) :
    (cs.flatMap fun dc =>
        (ds.filter fun d => d.id == dc.document_id).map fun d => (dc, d)) =
      cs.map fun dc => (dc, docFor dc) := by
  induction cs with
  | nil => rfl
  | cons c cs ih =>
      rw [List.flatMap_cons, h c (List.mem_cons_self c cs),
        ih fun dc hdc => h dc (List.mem_cons_of_mem c hdc)]
      rfl

theorem migrationWhere_pair_eq (dist : Vec → Vec → ℤ) (q : Vec) (th : ℤ) (o : ℕ)
    (dc : Chunk) (d : Document) (horg : d.org_id = dc.org_id) :
    migrationWhere dist q th (some o) (dc, d) = schemaWhere dist q th (some o) dc := by
  cases hemb : dc.embedding with
  | none => simp [migrationWhere, schemaWhere, simPred, sqlEqNullable, hemb]
  | some e =>
      simp only [migrationWhere, schemaWhere, simPred, sqlEqNullable, hemb, horg,
        Option.isNone_none, Option.isSome_some, Bool.false_or, Bool.and_true]
      cases h1 : (dc.org_id == o) <;>
        cases h2 : decide ((1 : ℤ) - dist e q > th) <;> simp [h1, h2]

theorem filter_map_pair (dist : Vec → Vec → ℤ) (q : Vec) (th : ℤ) (o : ℕ)
    (docFor : Chunk → Document) (cs : List Chunk)
    (h : ∀ dc ∈ cs, (docFor dc).org_id = dc.org_id) :
    ((cs.map fun dc => (dc, docFor dc)).filter (migrationWhere dist q th (some o))) =
      (cs.filter (schemaWhere dist q th (some o))).map fun dc => (dc, docFor dc) := by
  induction cs with
  | nil => rfl
  | cons c cs ih =>
      have hc := migrationWhere_pair_eq dist q th o c (docFor c) (h c (by simp))
      have ihh := ih fun dc hdc => h dc (by simp [hdc])
      simp only [List.map_cons, List.filter_cons, hc]
      cases hcs : schemaWhere dist q th (some o) c <;> simp [hcs, ihh]

theorem insertionSort_map_pair (dist : Vec → Vec → ℤ) (q : Vec)
    (docFor : Chunk → Document) (l : List Chunk) :
    ((l.map fun dc => (dc, docFor dc)).insertionSort (distLEfst dist q)) =
      (l.insertionSort (distLE dist q)).map fun dc => (dc, docFor dc) := by
  induction l with
  | nil => rfl
  | cons c l ih =>
      simp only [List.map_cons, List.insertionSort]
      rw [ih, ← List.map_orderedInsert (distLE dist q) (distLEfst dist q)
            (fun dc => (dc, docFor dc)) (l.insertionSort (distLE dist q)) c
            (fun a _ => Iff.rfl) (fun a _ => Iff.rfl)]

/-- C9 (amended): the two versions of `match_documents` agree — same chunk ids
with the same similarities in the same order — for every non-null tenant
filter, PROVIDED each chunk's `document_id` resolves to exactly one document
row and that row's `org_id` equals the chunk's own `org_id`.  The proviso is
forced: the schema constrains neither column to agree (see the
counterexample), and the two queries filter tenancy on different columns. -/
theorem match_documents_versions_agree (dist : Vec → Vec → ℤ) (db : DB) (q : Vec)
    (th : ℤ) (cnt : ℕ) (o : ℕ) (docFor : Chunk → Document)
    (h : ∀ dc ∈ db.document_chunks,
      (db.documents.filter fun d => d.id == dc.document_id) = [docFor dc] ∧
      (docFor dc).org_id = dc.org_id) :
    (match_documents_migration dist db q th cnt (some o)).map
        (fun r => (r.id, r.similarity)) =
      (match_documents_schema dist db q th cnt (some o)).map
        (fun r => (r.id, r.similarity)) := by
  have e1 : (joinRows db).filter (migrationWhere dist q th (some o)) =
      (db.document_chunks.filter (schemaWhere dist q th (some o))).map
        (fun dc => (dc, docFor dc)) := by
    unfold joinRows
    rw [flatMap_filter_join db.documents db.document_chunks docFor
          fun dc hdc => (h dc hdc).1]
    exact filter_map_pair dist q th o docFor db.document_chunks
      fun dc hdc => (h dc hdc).2
  unfold match_documents_migration match_documents_schema
  rw [e1, insertionSort_map_pair, ← List.map_take, List.map_map, List.map_map,
    List.map_map]
  rfl

theorem match_documents_versions_agree_witness :
    (match_documents_migration absDist exDbOwner [0] 0 5 (some 1)).map
        (fun r => (r.id, r.similarity)) =
      (match_documents_schema absDist exDbOwner [0] 0 5 (some 1)).map
        (fun r => (r.id, r.similarity)) :=
  match_documents_versions_agree absDist exDbOwner [0] 0 5 1 (fun _ => exDocA)
    (by decide)

/-- C9 is false as stated: nothing in the schema ties `document_chunks.org_id`
to the owning document's `org_id`, and the two versions filter tenancy on
different columns — on a chunk whose own `org_id` (1) differs from its
document's `org_id` (2), with a non-null filter for tenant 1 and the embedding
present, the schema version returns the chunk while the migration version
returns nothing. -/
theorem match_documents_versions_differ :
    (match_documents_schema absDist exDbMis [0] 0 10 (some 1)).map
        (fun r => (r.id, r.similarity)) = [(7, 1)] ∧
    (match_documents_migration absDist exDbMis [0] 0 10 (some 1)).map
        (fun r => (r.id, r.similarity)) = [] ∧
    exChunkMis.org_id = 1 ∧ exDocB.id = exChunkMis.document_id ∧ exDocB.org_id = 2 :=
  ⟨by decide, by decide, rfl, rfl, rfl⟩

end Tapulex
